import Mathlib

/-!
Shallow embedding of `app.py` of the ESTADANIBLIO attendance-tracking
application, together with proofs about the behaviours its specification
claims.

Strings are modelled as lists of Unicode code points (`Str := List Nat`).
The Unicode-dependent primitives (`str.lower`, NFD decomposition) are
modelled faithfully on the Latin-1 range (code points ≤ 0xFF), which covers
all text appearing in the application's Spanish-language data; code points
above 0xFF are left untouched by the case-folding and decomposition tables.
-/

namespace Estadaniblio

/-- Strings as lists of Unicode code points. -/
abbrev Str := List Nat

/-- Convert a Lean string literal to its code-point list. -/
def str (s : String) : Str := s.data.map Char.toNat

/-- Python `str.lower`, restricted to the Latin-1 range: ASCII `A`–`Z` and
the accented capitals `À`–`Þ` (except the multiplication sign `×`) map to
their lowercase forms 32 code points higher. -/
def pyLower (c : Nat) : Nat :=
  if 65 ≤ c ∧ c ≤ 90 then c + 32
  else if 192 ≤ c ∧ c ≤ 222 ∧ c ≠ 215 then c + 32
  else c

/-- Unicode NFD canonical decomposition of a single code point, restricted
to the Latin-1 range: each precomposed Latin-1 letter splits into its base
letter followed by a combining mark (`0x300` grave, `0x301` acute, `0x302`
circumflex, `0x303` tilde, `0x308` diaeresis, `0x30A` ring, `0x327`
cedilla). Code points without a decomposition stay as-is. -/
def nfd (c : Nat) : List Nat :=
  if 0x100 ≤ c then [c]
  else if c < 0xC0 then [c]
  else if c = 0xC0 then [0x41, 0x300]
  else if c = 0xC1 then [0x41, 0x301]
  else if c = 0xC2 then [0x41, 0x302]
  else if c = 0xC3 then [0x41, 0x303]
  else if c = 0xC4 then [0x41, 0x308]
  else if c = 0xC5 then [0x41, 0x30A]
  else if c = 0xC7 then [0x43, 0x327]
  else if c = 0xC8 then [0x45, 0x300]
  else if c = 0xC9 then [0x45, 0x301]
  else if c = 0xCA then [0x45, 0x302]
  else if c = 0xCB then [0x45, 0x308]
  else if c = 0xCC then [0x49, 0x300]
  else if c = 0xCD then [0x49, 0x301]
  else if c = 0xCE then [0x49, 0x302]
  else if c = 0xCF then [0x49, 0x308]
  else if c = 0xD1 then [0x4E, 0x303]
  else if c = 0xD2 then [0x4F, 0x300]
  else if c = 0xD3 then [0x4F, 0x301]
  else if c = 0xD4 then [0x4F, 0x302]
  else if c = 0xD5 then [0x4F, 0x303]
  else if c = 0xD6 then [0x4F, 0x308]
  else if c = 0xD9 then [0x55, 0x300]
  else if c = 0xDA then [0x55, 0x301]
  else if c = 0xDB then [0x55, 0x302]
  else if c = 0xDC then [0x55, 0x308]
  else if c = 0xDD then [0x59, 0x301]
  else if c = 0xE0 then [0x61, 0x300]
  else if c = 0xE1 then [0x61, 0x301]
  else if c = 0xE2 then [0x61, 0x302]
  else if c = 0xE3 then [0x61, 0x303]
  else if c = 0xE4 then [0x61, 0x308]
  else if c = 0xE5 then [0x61, 0x30A]
  else if c = 0xE7 then [0x63, 0x327]
  else if c = 0xE8 then [0x65, 0x300]
  else if c = 0xE9 then [0x65, 0x301]
  else if c = 0xEA then [0x65, 0x302]
  else if c = 0xEB then [0x65, 0x308]
  else if c = 0xEC then [0x69, 0x300]
  else if c = 0xED then [0x69, 0x301]
  else if c = 0xEE then [0x69, 0x302]
  else if c = 0xEF then [0x69, 0x308]
  else if c = 0xF1 then [0x6E, 0x303]
  else if c = 0xF2 then [0x6F, 0x300]
  else if c = 0xF3 then [0x6F, 0x301]
  else if c = 0xF4 then [0x6F, 0x302]
  else if c = 0xF5 then [0x6F, 0x303]
  else if c = 0xF6 then [0x6F, 0x308]
  else if c = 0xF9 then [0x75, 0x300]
  else if c = 0xFA then [0x75, 0x301]
  else if c = 0xFB then [0x75, 0x302]
  else if c = 0xFC then [0x75, 0x308]
  else if c = 0xFD then [0x79, 0x301]
  else if c = 0xFF then [0x79, 0x308]
  else [c]

/-- `app.py` `normalize_text`: lower-case the text, decompose it to NFD,
then keep only the ASCII code points (dropping the combining marks). -/
def normalize_text (s : Str) : Str :=
  ((s.map pyLower).flatMap nfd).filter (fun c => c < 128)

/-- `normalize_text` on a possibly missing input: Python's
`if not text: return ''` maps `None` (and the empty string) to `''`. -/
def normalize_text_opt : Option Str → Str
  | none => []
  | some s => normalize_text s

example : normalize_text (str "Ingeniería de Sistemas") = str "ingenieria de sistemas" := by decide
example : normalize_text (str "INGENIERÍA") = str "ingenieria" := by decide

/-- One character's contribution to `normalize_text`: lower-case,
decompose, keep ASCII. -/
def normChar (c : Nat) : List Nat := (nfd (pyLower c)).filter (fun d => d < 128)

/-- SQLite's `LOWER`, which folds only the ASCII letters `A`–`Z`. -/
def sqliteLower (c : Nat) : Nat := if 65 ≤ c ∧ c ≤ 90 then c + 32 else c

/-- SQLite `LIKE` compares ASCII letters case-insensitively. -/
def likeCharMatch (p h : Nat) : Bool := sqliteLower p == sqliteLower h

/-- Does the text start with the pattern, under SQLite `LIKE` character
comparison? -/
def likeStartsWith : Str → Str → Bool
  | [], _ => true
  | _ :: _, [] => false
  | p :: ps, h :: hs => likeCharMatch p h && likeStartsWith ps hs

/-- `text LIKE '%' || pat || '%'` in SQLite: some suffix of the text starts
with the pattern. -/
def likeInfix (pat : Str) : Str → Bool
  | [] => pat.isEmpty
  | h :: hs => likeStartsWith pat (h :: hs) || likeInfix pat hs

/-- Case-sensitive prefix test on code points. -/
def strStartsWith : Str → Str → Bool
  | [], _ => true
  | _ :: _, [] => false
  | p :: ps, h :: hs => (p == h) && strStartsWith ps hs

/-- Case-sensitive substring containment (PostgreSQL `LIKE '%pat%'`). -/
def strInfix (pat : Str) : Str → Bool
  | [] => pat.isEmpty
  | h :: hs => strStartsWith pat (h :: hs) || strInfix pat hs

/-- The SQLite branch of the grid endpoint's column condition in
`api_asistencias`: `LOWER(col) LIKE ?` with parameter
`'%' + normalize_text(term) + '%'`. -/
def sqliteColMatch (col term : Str) : Bool :=
  likeInfix (normalize_text term) (col.map sqliteLower)

/-- The five nested `REPLACE` calls of the PostgreSQL branch, which map the
lowercase accented vowels `á é í ó ú` to their plain forms. -/
def pgReplaceAccents (c : Nat) : Nat :=
  if c = 0xE1 then 0x61
  else if c = 0xE9 then 0x65
  else if c = 0xED then 0x69
  else if c = 0xF3 then 0x6F
  else if c = 0xFA then 0x75
  else c

/-- The PostgreSQL branch of the grid endpoint's column condition:
`LOWER(REPLACE(REPLACE(...col...))) LIKE %s` with a case-sensitive `LIKE`
and full Unicode `LOWER` (modelled by `pyLower` on Latin-1). -/
def pgColMatch (col term : Str) : Bool :=
  strInfix (normalize_text term) ((col.map pgReplaceAccents).map pyLower)

/-- The matching relation the specification describes: both the term and
the stored value are compared in diacritic-stripped, lower-cased form. -/
def specColMatch (col term : Str) : Bool :=
  strInfix (normalize_text term) (normalize_text col)

/-! ## The attendance data model -/

/-- A row of the `asistencias` table. -/
structure Asistencia where
  nombre_evento : Str
  dictado_por : Str
  docente : Str
  programa_docente : Str
  numero_identificacion : Str
  nombre_completo : Str
  programa_estudiante : Str
  modalidad : Str
  tipo_asistente : Str
  sede : Str
  fecha_evento : Str
deriving DecidableEq

/-- The duplicate pre-check of `formulario` and the UNIQUE index
`idx_asistencias_unique`: `SELECT COUNT(*) FROM asistencias WHERE
numero_identificacion = ? AND nombre_evento = ? AND fecha_evento = ?`. -/
def contarTriple (t : List Asistencia) (ni ne fe : Str) : Nat :=
  (t.filter fun r =>
    r.numero_identificacion == ni && r.nombre_evento == ne && r.fecha_evento == fe).length

/-- ASCII decimal digit test. -/
def isDigit (c : Nat) : Bool := 48 ≤ c && c ≤ 57

/-- `datetime.strptime(fecha_evento, "%Y-%m-%d")` succeeding, modelled as
the ten-character `YYYY-MM-DD` shape with the month in 1–12 and the day in
1–31. -/
def validFecha (s : Str) : Bool :=
  match s with
  | [y1, y2, y3, y4, s1, m1, m2, s2, d1, d2] =>
    isDigit y1 && isDigit y2 && isDigit y3 && isDigit y4 &&
    s1 == 45 && isDigit m1 && isDigit m2 && s2 == 45 && isDigit d1 && isDigit d2 &&
    decide (1 ≤ 10 * (m1 - 48) + (m2 - 48) ∧ 10 * (m1 - 48) + (m2 - 48) ≤ 12) &&
    decide (1 ≤ 10 * (d1 - 48) + (d2 - 48) ∧ 10 * (d1 - 48) + (d2 - 48) ≤ 31)
  | _ => false

/-- `datetime.strftime("%d/%m/%Y")` of a `YYYY-MM-DD` string: the
formatted date shown in the duplicate-registration error message. -/
def formatearFecha (s : Str) : Str :=
  match s with
  | [y1, y2, y3, y4, _, m1, m2, _, d1, d2] => [d1, d2, 47, m1, m2, 47, y1, y2, y3, y4]
  | _ => s

/-- The required-field validation loop of `formulario`: every one of the
ten form fields must be non-empty after stripping. -/
def camposRequeridos (d : Asistencia) : Bool :=
  !d.nombre_evento.isEmpty && !d.dictado_por.isEmpty && !d.docente.isEmpty &&
  !d.programa_docente.isEmpty && !d.numero_identificacion.isEmpty &&
  !d.nombre_completo.isEmpty && !d.programa_estudiante.isEmpty &&
  !d.modalidad.isEmpty && !d.tipo_asistente.isEmpty && !d.sede.isEmpty

/-- Where a successful registration redirects. -/
inductive Ruta
  | evaluacion
  | exito
deriving DecidableEq

/-- What the `formulario` POST handler does with the request. -/
inductive FormResultado
  | errorCampo
  | errorFecha
  | errorDuplicado (fechaMostrada : Str)
  | redirigir (r : Ruta)
deriving DecidableEq

/-- The one event category that skips the evaluation page. -/
def visitaDeGrupos : Str := str "Visita de Grupos"

/-- The POST branch of the `formulario` route: validate the ten required
fields, default an empty event date to today, validate the date format,
reject a duplicate (id number, event name, event date) triple with an
error showing the conflicting date formatted `dd/mm/YYYY`, otherwise
insert the row and redirect — to the evaluation page unless the event is
`Visita de Grupos`, which goes straight to the success page. -/
def formulario (hoy : Str) (t : List Asistencia) (datos : Asistencia) :
    List Asistencia × FormResultado :=
  if camposRequeridos datos then
    let fecha := if datos.fecha_evento.isEmpty then hoy else datos.fecha_evento
    if validFecha fecha then
      if 0 < contarTriple t datos.numero_identificacion datos.nombre_evento fecha then
        (t, .errorDuplicado (formatearFecha fecha))
      else
        let t2 := t ++ [{ datos with fecha_evento := fecha }]
        if datos.nombre_evento ≠ visitaDeGrupos then (t2, .redirigir .evaluacion)
        else (t2, .redirigir .exito)
    else (t, .errorFecha)
  else (t, .errorCampo)

/-! ## Evaluations -/

/-- A row of the `evaluaciones_capacitaciones` table (the generated
`promedio` column is a function of the five ratings and is not stored
separately here). -/
structure Evaluacion where
  asistencia_id : Nat
  calidad_contenido : Nat
  metodologia : Nat
  lenguaje_comprensible : Nat
  manejo_grupo : Nat
  solucion_inquietudes : Nat
  comentarios : Option Str
deriving DecidableEq

/-- The per-field validation of `formulario_evaluacion`: a rating must be
a digit between 1 and 5. -/
def notaValida (v : Nat) : Bool := decide (1 ≤ v ∧ v ≤ 5)

def notasValidas (e : Evaluacion) : Bool :=
  notaValida e.calidad_contenido && notaValida e.metodologia &&
  notaValida e.lenguaje_comprensible && notaValida e.manejo_grupo &&
  notaValida e.solucion_inquietudes

/-- What the `formulario_evaluacion` POST handler reports. -/
inductive EvalResultado
  | errorCampo
  | errorYaExiste
  | exito
deriving DecidableEq

/-- The POST branch of `formulario_evaluacion`: validate the five ratings,
then insert; the `UNIQUE(asistencia_id)` constraint makes the insert fail
when an evaluation for the same attendance id already exists, which the
handler reports as an already-exists error, leaving the table unchanged. -/
def formulario_evaluacion (evals : List Evaluacion) (e : Evaluacion) :
    List Evaluacion × EvalResultado :=
  if notasValidas e then
    if 0 < (evals.filter fun x => x.asistencia_id == e.asistencia_id).length then
      (evals, .errorYaExiste)
    else (evals ++ [e], .exito)
  else (evals, .errorCampo)

/-! ## Excel import -/

/-- Is the row's (id number, event name, event date) key absent from the
table? -/
def claveNueva (t : List Asistencia) (r : Asistencia) : Bool :=
  contarTriple t r.numero_identificacion r.nombre_evento r.fecha_evento == 0

/-- Two rows share the (id number, event name, event date) key. -/
def mismaClave (a b : Asistencia) : Prop :=
  a.numero_identificacion = b.numero_identificacion ∧
  a.nombre_evento = b.nombre_evento ∧ a.fecha_evento = b.fecha_evento

instance (a b : Asistencia) : Decidable (mismaClave a b) := by
  unfold mismaClave; infer_instance

/-- The row-insertion loop of `panel_cargar_excel`: each file row is
inserted, and a violation of the UNIQUE (id number, event name, event
date) index — the key already being present in the table as grown so far —
is counted as a skipped duplicate. Returns the final table, the number of
inserted rows and the number of duplicates. -/
def cargar_excel (t : List Asistencia) : List Asistencia → List Asistencia × Nat × Nat
  | [] => (t, 0, 0)
  | r :: rs =>
    if 0 < contarTriple t r.numero_identificacion r.nombre_evento r.fecha_evento then
      let rec' := cargar_excel t rs
      (rec'.1, rec'.2.1, rec'.2.2 + 1)
    else
      let rec' := cargar_excel (t ++ [r]) rs
      (rec'.1, rec'.2.1 + 1, rec'.2.2)

/-! ## Year window and data retention -/

/-- Value of a string of ASCII digits. -/
def digitsVal (s : Str) : Nat := s.foldl (fun a c => a * 10 + (c - 48)) 0

/-- SQLite `CAST(text AS INTEGER)`: parse an optional sign and the leading
run of digits; a string with no leading digits casts to 0. -/
def castEntero (s : Str) : Int :=
  match s with
  | 45 :: rest => -(digitsVal (rest.takeWhile isDigit) : Int)
  | 43 :: rest => (digitsVal (rest.takeWhile isDigit) : Int)
  | _ => (digitsVal (s.takeWhile isDigit) : Int)

/-- `CAST(SUBSTR(fecha_evento, 1, 4) AS INTEGER)`: the event year. -/
def anioDe (s : Str) : Int := castEntero (s.take 4)

/-- `get_ventana_anos`: the sliding window of the last `num_anos` years
ending at the current year. Returns (list of years, first year, current
year). -/
def get_ventana_anos (num_anos : Nat) (ano_actual : Int) : List Int × Int × Int :=
  let ano_inicio := ano_actual - ((num_anos : Int) - 1)
  ((List.range num_anos).map (fun i => ano_inicio + (i : Int)), ano_inicio, ano_actual)

/-- `limpiar_datos_antiguos`: count and delete the attendance rows whose
event year is strictly below the window's first year; returns the
remaining table and the number of deleted rows. -/
def limpiar_datos_antiguos (anos_a_mantener : Nat) (ano_actual : Int)
    (t : List Asistencia) : List Asistencia × Nat :=
  let ano_inicio := (get_ventana_anos anos_a_mantener ano_actual).2.1
  let eliminados := (t.filter fun r => decide (anioDe r.fecha_evento < ano_inicio)).length
  (t.filter fun r => decide (¬ anioDe r.fecha_evento < ano_inicio), eliminados)

/-! ## Statistics: filter building and aggregation -/

/-- Lexicographic comparison of code-point strings (SQL `<=` on TEXT,
and `ORDER BY ... ASC`). -/
def strLeB : Str → Str → Bool
  | [], _ => true
  | _ :: _, [] => false
  | a :: as, b :: bs => if a < b then true else if a == b then strLeB as bs else false

/-- One condition of the dynamically built WHERE clause of
`estadisticas`. -/
inductive Cond
  | anioGe (y : Int)
  | anioLe (y : Int)
  | eventoEq (e : Str)
  | programaEq (p : Str)
  | fechaGe (f : Str)
  | fechaLe (f : Str)
deriving DecidableEq

/-- Evaluate one WHERE condition on an attendance row. -/
def evalCond (r : Asistencia) : Cond → Bool
  | .anioGe y => decide (y ≤ anioDe r.fecha_evento)
  | .anioLe y => decide (anioDe r.fecha_evento ≤ y)
  | .eventoEq e => r.nombre_evento == e
  | .programaEq p => r.programa_estudiante == p
  | .fechaGe f => strLeB f r.fecha_evento
  | .fechaLe f => strLeB r.fecha_evento f

/-- The `where_clauses` list built by `estadisticas`: when neither date
bound is supplied, the trailing 5-year window on
`CAST(SUBSTR(fecha_evento,1,4) AS INTEGER)` is added automatically; then
the optional event, program, start-date and end-date filters, in the
code's order. -/
def estadisticas_where (ano_actual : Int)
    (evento programa fecha_inicio fecha_fin : Str) : List Cond :=
  (if fecha_inicio.isEmpty && fecha_fin.isEmpty then
    [Cond.anioGe (get_ventana_anos 5 ano_actual).2.1,
     Cond.anioLe (get_ventana_anos 5 ano_actual).2.2]
   else []) ++
  (if !evento.isEmpty then [Cond.eventoEq evento] else []) ++
  (if !programa.isEmpty then [Cond.programaEq programa] else []) ++
  (if !fecha_inicio.isEmpty then [Cond.fechaGe fecha_inicio] else []) ++
  (if !fecha_fin.isEmpty then [Cond.fechaLe fecha_fin] else [])

/-- A row satisfies the WHERE clause when it satisfies every condition
(they are joined with `AND`). -/
def cumpleWhere (conds : List Cond) (r : Asistencia) : Bool :=
  conds.all (evalCond r)

/-- `SELECT COUNT(*) FROM asistencias {where}`: the reported total
attendance count. -/
def estad_total (conds : List Cond) (rows : List Asistencia) : Nat :=
  (rows.filter (cumpleWhere conds)).length

/-- `GROUP BY key` with `COUNT(*)`: one `(key, count)` entry per distinct
key of the filtered rows. -/
def groupCountsBy {K : Type} [DecidableEq K] (key : Asistencia → K)
    (rows : List Asistencia) : List (K × Nat) :=
  (rows.map key).dedup.map fun k =>
    (k, (rows.filter fun r => decide (key r = k)).length)

/-- The event-name grouping key of query 5 (`GROUP BY nombre_evento`). -/
def keyEvento (r : Asistencia) : Str := r.nombre_evento

/-- The program×modality grouping key of query 6
(`GROUP BY programa_estudiante, modalidad`). -/
def keyProgramaModalidad (r : Asistencia) : Str × Str :=
  (r.programa_estudiante, r.modalidad)

/-- Query 5 of `estadisticas`: attendance counts per event, ordered by
count descending, `LIMIT 15`. -/
def estad_por_evento (conds : List Cond) (rows : List Asistencia) :
    List (Str × Nat) :=
  (List.insertionSort (fun a b => b.2 ≤ a.2)
    (groupCountsBy keyEvento (rows.filter (cumpleWhere conds)))).take 15

/-- Query 6 of `estadisticas`: attendance counts per program and
modality, ordered by count descending, `LIMIT 15`. -/
def estad_por_programa (conds : List Cond) (rows : List Asistencia) :
    List ((Str × Str) × Nat) :=
  (List.insertionSort (fun a b => b.2 ≤ a.2)
    (groupCountsBy keyProgramaModalidad (rows.filter (cumpleWhere conds)))).take 15

/-! ## Programs and modalities -/

/-- A row of the `programas` (or `modalidades`) table: both tables carry a
serial id, a UNIQUE name and an `activo` flag (timestamps omitted). -/
structure Programa where
  id : Nat
  nombre : Str
  activo : Nat
deriving DecidableEq

/-- The whole database state touched by program/modality management. -/
structure BaseDatos where
  programas : List Programa
  modalidades : List Programa
  asistencias : List Asistencia
deriving DecidableEq

/-- Result of a program/modality management action. -/
inductive AccionResultado
  | exito
  | errorReferenciado (count : Nat)
  | noEncontrado
deriving DecidableEq

/-- `get_programas_activos` (`/api/programas/activos`): the names of the
active programs, sorted ascending — the list used to populate the form's
program dropdown. -/
def get_programas_activos (ps : List Programa) : List Str :=
  List.insertionSort (fun a b => strLeB a b = true)
    ((ps.filter fun p => p.activo == 1).map (·.nombre))

/-- `api_modalidades_activas` (`/api/modalidades/activas`): the names of
the active modalities, sorted ascending. -/
def api_modalidades_activas (ms : List Programa) : List Str :=
  List.insertionSort (fun a b => strLeB a b = true)
    ((ms.filter fun m => m.activo == 1).map (·.nombre))

/-- `toggle_programa`: fetch the program's `activo` flag, flip it, and
update the row. -/
def toggle_programa (db : BaseDatos) (pid : Nat) : BaseDatos × AccionResultado :=
  match (db.programas.filter fun p => p.id == pid).head? with
  | none => (db, .noEncontrado)
  | some p =>
    let nuevo := if p.activo == 1 then 0 else 1
    ({ db with programas := db.programas.map fun q =>
        if q.id == pid then { q with activo := nuevo } else q }, .exito)

/-- `api_toggle_modalidad`: the same flip on the `modalidades` table. -/
def api_toggle_modalidad (db : BaseDatos) (mid : Nat) : BaseDatos × AccionResultado :=
  match (db.modalidades.filter fun m => m.id == mid).head? with
  | none => (db, .noEncontrado)
  | some m =>
    let nuevo := if m.activo == 1 then 0 else 1
    ({ db with modalidades := db.modalidades.map fun q =>
        if q.id == mid then { q with activo := nuevo } else q }, .exito)

/-- `eliminar_programa`: count the attendance rows whose student or
teacher program is the program's name; refuse to delete when any exist,
otherwise delete the program row. -/
def eliminar_programa (db : BaseDatos) (pid : Nat) : BaseDatos × AccionResultado :=
  let nombres := (db.programas.filter fun p => p.id == pid).map (·.nombre)
  let count := (db.asistencias.filter fun a =>
      nombres.contains a.programa_estudiante || nombres.contains a.programa_docente).length
  if 0 < count then (db, .errorReferenciado count)
  else ({ db with programas := db.programas.filter fun p => !(p.id == pid) }, .exito)

/-- `api_eliminar_modalidad`: count the attendance rows whose modality is
the modality's name (a scalar subquery — if the id does not exist the
comparison with NULL matches no row); refuse to delete when any exist. -/
def api_eliminar_modalidad (db : BaseDatos) (mid : Nat) : BaseDatos × AccionResultado :=
  let nombreOpt := ((db.modalidades.filter fun m => m.id == mid).map (·.nombre)).head?
  let count := match nombreOpt with
    | none => 0
    | some n => (db.asistencias.filter fun a => a.modalidad == n).length
  if 0 < count then (db, .errorReferenciado count)
  else ({ db with modalidades := db.modalidades.filter fun m => !(m.id == mid) }, .exito)

/-! ## Concrete sample rows used by witnesses and counterexamples -/

/-- A sample, fully populated attendance row. -/
def filaEjemplo : Asistencia :=
  { nombre_evento := str "Taller de Bases de Datos"
    dictado_por := str "Ana Gomez"
    docente := str "Luis Rojas"
    programa_docente := str "Derecho"
    numero_identificacion := str "1002003004"
    nombre_completo := str "Juan Perez"
    programa_estudiante := str "Derecho"
    modalidad := str "Presencial"
    tipo_asistente := str "Estudiante"
    sede := str "Central"
    fecha_evento := str "2024-05-10" }

/-- A row whose event date lies in the future, beyond the current year. -/
def filaFutura : Asistencia := { filaEjemplo with fecha_evento := str "2030-06-01" }

/-- Sixteen attendance rows with sixteen distinct event names (`A`–`P`),
all dated inside the default window. -/
def filasDieciseis : List Asistencia :=
  (List.range 16).map fun i => { filaEjemplo with nombre_evento := [65 + i] }

/-- A sample program referenced by `filaEjemplo`. -/
def programaDerecho : Programa := { id := 1, nombre := str "Derecho", activo := 1 }

/-- A sample modality referenced by `filaEjemplo`. -/
def modalidadPresencial : Programa := { id := 1, nombre := str "Presencial", activo := 1 }

/-- A sample database state: two programs, one modality, one attendance
row referencing the first program and the modality. -/
def dbEjemplo : BaseDatos :=
  { programas := [programaDerecho, { id := 2, nombre := str "Musica", activo := 1 }]
    modalidades := [modalidadPresencial]
    asistencias := [filaEjemplo] }

/-- A sample evaluation row. -/
def evalEjemplo : Evaluacion :=
  { asistencia_id := 1
    calidad_contenido := 5
    metodologia := 4
    lenguaje_comprensible := 3
    manejo_grupo := 4
    solucion_inquietudes := 5
    comentarios := none }

/-! ## Lemmas about `normalize_text` -/

lemma pyLower_of_large {c : Nat} (h : 256 ≤ c) : pyLower c = c := by
  unfold pyLower; split_ifs <;> omega

lemma nfd_of_large {c : Nat} (h : 256 ≤ c) : nfd c = [c] := by
  simp only [nfd]; rw [if_pos h]

lemma normChar_of_large {c : Nat} (h : 256 ≤ c) : normChar c = [] := by
  have h128 : ¬ (c < 128) := by omega
  unfold normChar
  rw [pyLower_of_large h, nfd_of_large h]
  simp [List.filter, h128]

set_option maxRecDepth 8000 in
lemma normChar_mem_small :
    ∀ c : Fin 256, ∀ d ∈ normChar c.val, d < 128 ∧ ¬ (65 ≤ d ∧ d ≤ 90) := by decide

lemma normChar_mem {c d : Nat} (hd : d ∈ normChar c) :
    d < 128 ∧ ¬ (65 ≤ d ∧ d ≤ 90) := by
  by_cases h : c < 256
  · exact normChar_mem_small ⟨c, h⟩ d hd
  · rw [normChar_of_large (by omega)] at hd
    simp at hd

lemma pyLower_fixed {d : Nat} (h1 : d < 128) (h2 : ¬ (65 ≤ d ∧ d ≤ 90)) :
    pyLower d = d := by
  unfold pyLower; split_ifs <;> first | rfl | omega

lemma nfd_fixed {d : Nat} (h1 : d < 128) : nfd d = [d] := by
  simp only [nfd]
  rw [if_neg (by omega), if_pos (by omega)]

lemma normChar_fixed {d : Nat} (h1 : d < 128) (h2 : ¬ (65 ≤ d ∧ d ≤ 90)) :
    normChar d = [d] := by
  unfold normChar
  rw [pyLower_fixed h1 h2, nfd_fixed h1]
  simp [List.filter, h1]

lemma normalize_text_eq_flatMap (s : Str) :
    normalize_text s = s.flatMap normChar := by
  induction s with
  | nil => rfl
  | cons c cs ih =>
    simp only [normalize_text, normChar, List.map_cons, List.flatMap_cons,
      List.filter_append] at *
    rw [ih]

lemma flatMap_normChar_fixed (l : List Nat)
    (h : ∀ d ∈ l, normChar d = [d]) : l.flatMap normChar = l := by
  induction l with
  | nil => rfl
  | cons d ds ih =>
    rw [List.flatMap_cons, h d (by simp), ih fun e he => h e (by simp [he])]
    rfl

/-- C10: `normalize_text` is idempotent and total. Applying it twice gives
the same result as applying it once; every code point of its output is
ASCII (< 128) and already lower-cased (fixed by `pyLower`); and an empty or
missing (`None`) input yields the empty string. -/
theorem C10_normalize_text_idempotent_total :
    (∀ s : Str, normalize_text (normalize_text s) = normalize_text s) ∧
    (∀ s : Str, ∀ c ∈ normalize_text s, c < 128 ∧ pyLower c = c) ∧
    normalize_text_opt none = [] ∧ normalize_text_opt (some []) = [] := by
  refine ⟨?_, ?_, rfl, rfl⟩
  · intro s
    rw [normalize_text_eq_flatMap (normalize_text s)]
    apply flatMap_normChar_fixed
    intro d hd
    rw [normalize_text_eq_flatMap] at hd
    obtain ⟨c, -, hdc⟩ := List.mem_flatMap.mp hd
    obtain ⟨h1, h2⟩ := normChar_mem hdc
    exact normChar_fixed h1 h2
  · intro s c hc
    rw [normalize_text_eq_flatMap] at hc
    obtain ⟨d, -, hcd⟩ := List.mem_flatMap.mp hc
    obtain ⟨h1, h2⟩ := normChar_mem hcd
    exact ⟨h1, pyLower_fixed h1 h2⟩

/-- Witness for C10 at a concrete input: the code point of `e` belongs to
`normalize_text "É"` and satisfies the stated output property. -/
theorem C10_normalize_text_witness :
    101 ∈ normalize_text (str "É") ∧ (101 < 128 ∧ pyLower 101 = 101) :=
  ⟨by decide, C10_normalize_text_idempotent_total.2.1 (str "É") 101 (by decide)⟩

/-- C2: the claim that the grid endpoint compares both the term and the
stored column value in diacritic-stripped, lower-cased form fails on the
code. In the SQLite branch the stored value is only `LOWER`ed, so the term
`ingenieria` does not match the stored value `Ingeniería`; in the
PostgreSQL branch only the five lowercase accented vowels are replaced, so
the stored value `INGENIERÍA` is not matched either. Under the
specification's own normalised comparison both values match. -/
theorem C2_search_accent_mismatch :
    sqliteColMatch (str "Ingeniería") (str "ingenieria") = false ∧
    pgColMatch (str "INGENIERÍA") (str "ingenieria") = false ∧
    specColMatch (str "Ingeniería") (str "ingenieria") = true ∧
    specColMatch (str "INGENIERÍA") (str "ingenieria") = true := by decide

/-! ## The attendance form -/

lemma validFecha_not_nil {s : Str} (h : validFecha s = true) : s.isEmpty = false := by
  cases s with
  | nil => exact absurd h (by decide)
  | cons a l => rfl

/-- C1: an attendance-insert request whose (id number, event name, event
date) triple already exists in the table fails with the duplicate error
showing the conflicting date formatted `dd/mm/YYYY`, and the table is left
unchanged. -/
theorem C1_duplicate_insert_rejected
    (hoy : Str) (t : List Asistencia) (datos : Asistencia)
    (hc : camposRequeridos datos = true)
    (hf : validFecha datos.fecha_evento = true)
    (hd : 0 < contarTriple t datos.numero_identificacion datos.nombre_evento
            datos.fecha_evento) :
    formulario hoy t datos =
      (t, .errorDuplicado (formatearFecha datos.fecha_evento)) := by
  simp [formulario, hc, validFecha_not_nil hf, hf, hd]

/-- Witness for C1: registering the sample row a second time is rejected
with the duplicate error and leaves the one-row table unchanged. -/
theorem C1_duplicate_insert_rejected_witness :
    formulario (str "2024-05-11") [filaEjemplo] filaEjemplo =
      ([filaEjemplo], .errorDuplicado (formatearFecha filaEjemplo.fecha_evento)) :=
  C1_duplicate_insert_rejected (str "2024-05-11") [filaEjemplo] filaEjemplo
    (by decide) (by decide) (by decide)

/-- C6: a successful registration (valid fields, valid date, no duplicate)
inserts the row and redirects to the evaluation page exactly when the event
name is not `Visita de Grupos`; a `Visita de Grupos` registration goes
straight to the success page. -/
theorem C6_evaluation_skipped_for_visita
    (hoy : Str) (t : List Asistencia) (datos : Asistencia)
    (hc : camposRequeridos datos = true)
    (hf : validFecha datos.fecha_evento = true)
    (hd : contarTriple t datos.numero_identificacion datos.nombre_evento
            datos.fecha_evento = 0) :
    ((formulario hoy t datos).2 = .redirigir .evaluacion ↔
      datos.nombre_evento ≠ visitaDeGrupos) ∧
    (datos.nombre_evento = visitaDeGrupos →
      (formulario hoy t datos).2 = .redirigir .exito) ∧
    (formulario hoy t datos).1 = t ++ [datos] := by
  have hred : formulario hoy t datos =
      (t ++ [datos],
        if datos.nombre_evento ≠ visitaDeGrupos then FormResultado.redirigir .evaluacion
        else FormResultado.redirigir .exito) := by
    simp only [formulario, hc, validFecha_not_nil hf, Bool.false_eq_true, if_false,
      if_true, hf, hd, Nat.lt_irrefl]
    split_ifs <;> rfl
  rw [hred]
  by_cases hv : datos.nombre_evento = visitaDeGrupos <;> simp [hv]

/-- Witness for C6: the sample row registers against an empty table and is
sent to the evaluation page. -/
theorem C6_evaluation_skipped_for_visita_witness :
    ((formulario (str "2024-05-11") [] filaEjemplo).2 = .redirigir .evaluacion ↔
      filaEjemplo.nombre_evento ≠ visitaDeGrupos) ∧
    (filaEjemplo.nombre_evento = visitaDeGrupos →
      (formulario (str "2024-05-11") [] filaEjemplo).2 = .redirigir .exito) ∧
    (formulario (str "2024-05-11") [] filaEjemplo).1 = [] ++ [filaEjemplo] :=
  C6_evaluation_skipped_for_visita (str "2024-05-11") [] filaEjemplo
    (by decide) (by decide) (by decide)

/-! ## Evaluations: one per attendance record -/

/-- C7: submitting a valid second evaluation for an attendance id that
already has one fails with the already-exists error and leaves the
evaluations table unchanged; moreover any call of the handler preserves
the one-to-one link (pairwise-distinct attendance ids). -/
theorem C7_second_evaluation_rejected :
    (∀ (evals : List Evaluacion) (e : Evaluacion),
        notasValidas e = true →
        (∃ x ∈ evals, x.asistencia_id = e.asistencia_id) →
        formulario_evaluacion evals e = (evals, .errorYaExiste)) ∧
    (∀ (evals : List Evaluacion) (e : Evaluacion),
        evals.Pairwise (fun a b => a.asistencia_id ≠ b.asistencia_id) →
        (formulario_evaluacion evals e).1.Pairwise
          (fun a b => a.asistencia_id ≠ b.asistencia_id)) := by
  constructor
  · rintro evals e hv ⟨x, hx, hid⟩
    have hpos : 0 < (evals.filter fun x => x.asistencia_id == e.asistencia_id).length :=
      List.length_pos_of_mem (List.mem_filter.mpr ⟨hx, by simp [hid]⟩)
    simp [formulario_evaluacion, hv, hpos]
  · intro evals e hp
    unfold formulario_evaluacion
    split_ifs with h1 h2
    · exact hp
    · have hnone : ∀ x ∈ evals, x.asistencia_id ≠ e.asistencia_id := by
        intro x hx heq
        exact h2 (List.length_pos_of_mem (List.mem_filter.mpr ⟨hx, by simp [heq]⟩))
      refine List.pairwise_append.mpr ⟨hp, List.pairwise_singleton _ _, ?_⟩
      intro a ha b hb
      simp only [List.mem_singleton] at hb
      subst hb
      exact hnone a ha
    · exact hp

/-- Witness for C7: evaluating the same attendance twice, the second
submission is rejected and the table is unchanged. -/
theorem C7_second_evaluation_rejected_witness :
    formulario_evaluacion [evalEjemplo] evalEjemplo =
      ([evalEjemplo], .errorYaExiste) :=
  C7_second_evaluation_rejected.1 [evalEjemplo] evalEjemplo (by decide)
    ⟨evalEjemplo, by simp, rfl⟩

/-! ## Excel import -/

/-- C9 counterexample: an upload of two identical rows against an empty
table. Both rows' keys are new relative to the pre-import table (N = 2,
M = 0), yet the import inserts only 1 row and reports 1 duplicate —
refuting "inserts exactly N and reports M skipped" as stated. -/
theorem C9_counterexample_internal_duplicates :
    (cargar_excel [] [filaEjemplo, filaEjemplo]).2.1 = 1 ∧
    (cargar_excel [] [filaEjemplo, filaEjemplo]).2.2 = 1 ∧
    ([filaEjemplo, filaEjemplo].filter (claveNueva [])).length = 2 := by decide

lemma contarTriple_append (t1 t2 : List Asistencia) (a b c : Str) :
    contarTriple (t1 ++ t2) a b c = contarTriple t1 a b c + contarTriple t2 a b c := by
  unfold contarTriple
  rw [List.filter_append, List.length_append]

lemma contarTriple_single_zero {r r' : Asistencia} (h : ¬ mismaClave r r') :
    contarTriple [r] r'.numero_identificacion r'.nombre_evento r'.fecha_evento = 0 := by
  by_cases h1 : r.numero_identificacion = r'.numero_identificacion <;>
  by_cases h2 : r.nombre_evento = r'.nombre_evento <;>
  by_cases h3 : r.fecha_evento = r'.fecha_evento <;>
    simp_all [mismaClave, contarTriple, List.filter_cons, List.filter_nil,
      Bool.and_eq_true, beq_iff_eq]

lemma claveNueva_append {r r' : Asistencia} (t : List Asistencia)
    (h : ¬ mismaClave r r') : claveNueva (t ++ [r]) r' = claveNueva t r' := by
  unfold claveNueva
  rw [contarTriple_append, contarTriple_single_zero h, Nat.add_zero]

/-- C9 amended: for an upload whose rows carry pairwise-distinct (id
number, event name, event date) keys, the import inserts exactly the rows
whose key is new relative to the pre-import table, reports exactly the
remaining rows as duplicates, and the final table is the original followed
by the inserted rows. -/
theorem C9_import_counts_amended :
    ∀ (filas t : List Asistencia),
      filas.Pairwise (fun a b => ¬ mismaClave a b) →
      (cargar_excel t filas).2.1 = (filas.filter (claveNueva t)).length ∧
      (cargar_excel t filas).2.2 = (filas.filter fun r => !claveNueva t r).length ∧
      (cargar_excel t filas).1 = t ++ filas.filter (claveNueva t) := by
  intro filas
  induction filas with
  | nil => intro t _; simp [cargar_excel]
  | cons r rs ih =>
    intro t hp
    rw [List.pairwise_cons] at hp
    obtain ⟨hr, hrs⟩ := hp
    unfold cargar_excel
    by_cases hdup : 0 < contarTriple t r.numero_identificacion r.nombre_evento r.fecha_evento
    · have hcn : claveNueva t r = false := by
        unfold claveNueva; simp; omega
      rw [if_pos hdup]
      obtain ⟨h1, h2, h3⟩ := ih t hrs
      simp [h1, h2, h3, List.filter_cons, hcn]
    · have hcn : claveNueva t r = true := by
        unfold claveNueva; simp; omega
      rw [if_neg hdup]
      obtain ⟨h1, h2, h3⟩ := ih (t ++ [r]) hrs
      have hfc : rs.filter (claveNueva (t ++ [r])) = rs.filter (claveNueva t) :=
        List.filter_congr fun x hx => claveNueva_append t (hr x hx)
      have hfc2 : (rs.filter fun x => !claveNueva (t ++ [r]) x) =
          rs.filter fun x => !claveNueva t x :=
        List.filter_congr fun x hx => by rw [claveNueva_append t (hr x hx)]
      rw [hfc] at h1 h3
      rw [hfc2] at h2
      simp [h1, h2, h3, List.filter_cons, hcn, List.append_assoc]

/-- Witness for C9 amended, at a two-row upload with distinct keys against
an empty table. -/
theorem C9_import_counts_amended_witness :
    (cargar_excel [] [filaEjemplo, filaFutura]).2.1 =
      ([filaEjemplo, filaFutura].filter (claveNueva [])).length ∧
    (cargar_excel [] [filaEjemplo, filaFutura]).2.2 =
      ([filaEjemplo, filaFutura].filter fun r => !claveNueva [] r).length ∧
    (cargar_excel [] [filaEjemplo, filaFutura]).1 =
      [] ++ [filaEjemplo, filaFutura].filter (claveNueva []) :=
  C9_import_counts_amended [filaEjemplo, filaFutura] [] (by decide)

/-! ## Program and modality management -/

lemma filter_id_eq_singleton {ps : List Programa}
    (hids : ps.Pairwise fun a b => a.id ≠ b.id) {p : Programa} (hmem : p ∈ ps) :
    (ps.filter fun q => q.id == p.id) = [p] := by
  induction ps with
  | nil => cases hmem
  | cons a l ih =>
    rw [List.pairwise_cons] at hids
    obtain ⟨ha, hl⟩ := hids
    rcases List.mem_cons.mp hmem with rfl | hmem'
    · rw [List.filter_cons_of_pos (by simp)]
      have hnil : (l.filter fun q => q.id == p.id) = [] :=
        List.filter_eq_nil_iff.mpr fun x hx => by
          simp only [beq_iff_eq]
          exact fun hh => ha x hx hh.symm
      rw [hnil]
    · rw [List.filter_cons_of_neg (by simpa using ha p hmem')]
      exact ih hl hmem'

lemma nombre_unico {ps : List Programa}
    (hnoms : ps.Pairwise fun a b => a.nombre ≠ b.nombre)
    {p q : Programa} (hp : p ∈ ps) (hq : q ∈ ps) (h : p.nombre = q.nombre) :
    p = q := by
  by_contra hne
  exact List.Pairwise.forall (fun _ _ hab => Ne.symm hab) hnoms hp hq hne h

lemma toggle_programa_spec (db : BaseDatos) (p : Programa)
    (hids : db.programas.Pairwise fun a b => a.id ≠ b.id)
    (hnoms : db.programas.Pairwise fun a b => a.nombre ≠ b.nombre)
    (hmem : p ∈ db.programas) (hact : p.activo = 1) :
    (toggle_programa db p.id).2 = .exito ∧
    p.nombre ∉ get_programas_activos (toggle_programa db p.id).1.programas ∧
    (toggle_programa db p.id).1.asistencias = db.asistencias := by
  have hfilter := filter_id_eq_singleton hids hmem
  unfold toggle_programa
  rw [hfilter]
  simp only [List.head?_cons]
  refine ⟨by trivial, ?_, by trivial⟩
  unfold get_programas_activos
  rw [(List.perm_insertionSort _ _).mem_iff]
  intro hcontra
  obtain ⟨q, hq, hqn⟩ := List.mem_map.mp hcontra
  rw [List.mem_filter] at hq
  obtain ⟨hq1, hq2⟩ := hq
  obtain ⟨q0, hq0, rfl⟩ := List.mem_map.mp hq1
  by_cases hid : q0.id = p.id
  · rw [if_pos (by simpa using hid)] at hq2
    simp [hact] at hq2
  · rw [if_neg (by simpa using hid)] at hq2 hqn
    exact hid (congrArg Programa.id (nombre_unico hnoms hq0 hmem hqn))

lemma api_toggle_modalidad_spec (db : BaseDatos) (m : Programa)
    (hids : db.modalidades.Pairwise fun a b => a.id ≠ b.id)
    (hnoms : db.modalidades.Pairwise fun a b => a.nombre ≠ b.nombre)
    (hmem : m ∈ db.modalidades) (hact : m.activo = 1) :
    (api_toggle_modalidad db m.id).2 = .exito ∧
    m.nombre ∉ api_modalidades_activas (api_toggle_modalidad db m.id).1.modalidades ∧
    (api_toggle_modalidad db m.id).1.asistencias = db.asistencias := by
  have hfilter := filter_id_eq_singleton hids hmem
  unfold api_toggle_modalidad
  rw [hfilter]
  simp only [List.head?_cons]
  refine ⟨by trivial, ?_, by trivial⟩
  unfold api_modalidades_activas
  rw [(List.perm_insertionSort _ _).mem_iff]
  intro hcontra
  obtain ⟨q, hq, hqn⟩ := List.mem_map.mp hcontra
  rw [List.mem_filter] at hq
  obtain ⟨hq1, hq2⟩ := hq
  obtain ⟨q0, hq0, rfl⟩ := List.mem_map.mp hq1
  by_cases hid : q0.id = m.id
  · rw [if_pos (by simpa using hid)] at hq2
    simp [hact] at hq2
  · rw [if_neg (by simpa using hid)] at hq2 hqn
    exact hid (congrArg Programa.id (nombre_unico hnoms hq0 hmem hqn))

lemma eliminar_programa_spec (db : BaseDatos) (p : Programa)
    (hmem : p ∈ db.programas)
    (href : ∃ a ∈ db.asistencias,
      a.programa_estudiante = p.nombre ∨ a.programa_docente = p.nombre) :
    (eliminar_programa db p.id).1 = db ∧
    ∃ c, 0 < c ∧ (eliminar_programa db p.id).2 = .errorReferenciado c := by
  obtain ⟨a, ha, hcase⟩ := href
  have hpn : p.nombre ∈ (db.programas.filter fun q => q.id == p.id).map (·.nombre) :=
    List.mem_map_of_mem _ (List.mem_filter.mpr ⟨hmem, by simp⟩)
  have hamem : a ∈ db.asistencias.filter fun x =>
      ((db.programas.filter fun q => q.id == p.id).map (·.nombre)).contains
          x.programa_estudiante ||
        ((db.programas.filter fun q => q.id == p.id).map (·.nombre)).contains
          x.programa_docente := by
    refine List.mem_filter.mpr ⟨ha, ?_⟩
    rcases hcase with h | h
    · simp only [Bool.or_eq_true, List.elem_iff, h]
      exact Or.inl hpn
    · simp only [Bool.or_eq_true, List.elem_iff, h]
      exact Or.inr hpn
  have hpos := List.length_pos_of_mem hamem
  simp only [eliminar_programa]
  rw [if_pos hpos]
  exact ⟨rfl, _, hpos, rfl⟩

lemma api_eliminar_modalidad_spec (db : BaseDatos) (m : Programa)
    (hids : db.modalidades.Pairwise fun a b => a.id ≠ b.id)
    (hmem : m ∈ db.modalidades)
    (href : ∃ a ∈ db.asistencias, a.modalidad = m.nombre) :
    (api_eliminar_modalidad db m.id).1 = db ∧
    ∃ c, 0 < c ∧ (api_eliminar_modalidad db m.id).2 = .errorReferenciado c := by
  obtain ⟨a, ha, hmod⟩ := href
  have hfilter := filter_id_eq_singleton hids hmem
  have hpos : 0 < (db.asistencias.filter fun x => x.modalidad == m.nombre).length :=
    List.length_pos_of_mem (List.mem_filter.mpr ⟨ha, by simp [hmod]⟩)
  simp only [api_eliminar_modalidad, hfilter, List.map_cons, List.map_nil,
    List.head?_cons]
  rw [if_pos hpos]
  exact ⟨rfl, _, hpos, rfl⟩

/-- C8: a program or modality referenced by at least one attendance row
cannot be deleted — the delete reports the reference count and changes
nothing — while deactivating it succeeds, removes its name from the
active-options list that populates the form dropdowns, and leaves every
attendance row unchanged. (The uniqueness hypotheses mirror the PRIMARY
KEY on `id` and the UNIQUE constraint on `nombre`.) -/
theorem C8_delete_blocked_deactivate_succeeds :
    (∀ (db : BaseDatos) (p : Programa), p ∈ db.programas →
      (∃ a ∈ db.asistencias,
        a.programa_estudiante = p.nombre ∨ a.programa_docente = p.nombre) →
      (eliminar_programa db p.id).1 = db ∧
      ∃ c, 0 < c ∧ (eliminar_programa db p.id).2 = .errorReferenciado c) ∧
    (∀ (db : BaseDatos) (p : Programa),
      db.programas.Pairwise (fun a b => a.id ≠ b.id) →
      db.programas.Pairwise (fun a b => a.nombre ≠ b.nombre) →
      p ∈ db.programas → p.activo = 1 →
      (toggle_programa db p.id).2 = .exito ∧
      p.nombre ∉ get_programas_activos (toggle_programa db p.id).1.programas ∧
      (toggle_programa db p.id).1.asistencias = db.asistencias) ∧
    (∀ (db : BaseDatos) (m : Programa),
      db.modalidades.Pairwise (fun a b => a.id ≠ b.id) →
      m ∈ db.modalidades →
      (∃ a ∈ db.asistencias, a.modalidad = m.nombre) →
      (api_eliminar_modalidad db m.id).1 = db ∧
      ∃ c, 0 < c ∧ (api_eliminar_modalidad db m.id).2 = .errorReferenciado c) ∧
    (∀ (db : BaseDatos) (m : Programa),
      db.modalidades.Pairwise (fun a b => a.id ≠ b.id) →
      db.modalidades.Pairwise (fun a b => a.nombre ≠ b.nombre) →
      m ∈ db.modalidades → m.activo = 1 →
      (api_toggle_modalidad db m.id).2 = .exito ∧
      m.nombre ∉ api_modalidades_activas (api_toggle_modalidad db m.id).1.modalidades ∧
      (api_toggle_modalidad db m.id).1.asistencias = db.asistencias) :=
  ⟨fun db p hmem href => eliminar_programa_spec db p hmem href,
   fun db p hids hnoms hmem hact => toggle_programa_spec db p hids hnoms hmem hact,
   fun db m hids hmem href => api_eliminar_modalidad_spec db m hids hmem href,
   fun db m hids hnoms hmem hact => api_toggle_modalidad_spec db m hids hnoms hmem hact⟩

/-- Witness for C8 on the sample database: deleting the referenced program
`Derecho` fails and changes nothing, and deactivating it removes it from
the active-options list while the attendance rows stay intact; likewise
for the referenced modality `Presencial`. -/
theorem C8_delete_blocked_deactivate_succeeds_witness :
    ((eliminar_programa dbEjemplo programaDerecho.id).1 = dbEjemplo ∧
      ∃ c, 0 < c ∧
        (eliminar_programa dbEjemplo programaDerecho.id).2 = .errorReferenciado c) ∧
    ((toggle_programa dbEjemplo programaDerecho.id).2 = .exito ∧
      programaDerecho.nombre ∉
        get_programas_activos (toggle_programa dbEjemplo programaDerecho.id).1.programas ∧
      (toggle_programa dbEjemplo programaDerecho.id).1.asistencias =
        dbEjemplo.asistencias) ∧
    ((api_eliminar_modalidad dbEjemplo modalidadPresencial.id).1 = dbEjemplo ∧
      ∃ c, 0 < c ∧
        (api_eliminar_modalidad dbEjemplo modalidadPresencial.id).2 =
          .errorReferenciado c) ∧
    ((api_toggle_modalidad dbEjemplo modalidadPresencial.id).2 = .exito ∧
      modalidadPresencial.nombre ∉
        api_modalidades_activas
          (api_toggle_modalidad dbEjemplo modalidadPresencial.id).1.modalidades ∧
      (api_toggle_modalidad dbEjemplo modalidadPresencial.id).1.asistencias =
        dbEjemplo.asistencias) :=
  ⟨C8_delete_blocked_deactivate_succeeds.1 dbEjemplo programaDerecho (by decide)
      ⟨filaEjemplo, by decide, by decide⟩,
   C8_delete_blocked_deactivate_succeeds.2.1 dbEjemplo programaDerecho (by decide)
      (by decide) (by decide) (by decide),
   C8_delete_blocked_deactivate_succeeds.2.2.1 dbEjemplo modalidadPresencial
      (by decide) (by decide) ⟨filaEjemplo, by decide, by decide⟩,
   C8_delete_blocked_deactivate_succeeds.2.2.2 dbEjemplo modalidadPresencial
      (by decide) (by decide) (by decide) (by decide)⟩

/-! ## Data retention -/

/-- C4 counterexample: with the current year 2025 and a 5-year window, a
row dated 2030 has its event year outside the window returned by
`get_ventana_anos`, yet `limpiar_datos_antiguos` keeps it — refuting
"deletes exactly the rows whose event year falls outside the window". -/
theorem C4_counterexample_future_rows_kept :
    (limpiar_datos_antiguos 5 2025 [filaFutura]).1 = [filaFutura] ∧
    anioDe filaFutura.fecha_evento ∉ (get_ventana_anos 5 2025).1 := by decide

lemma length_filter_not_add_length_filter {α : Type} (l : List α) (p : α → Bool) :
    (l.filter fun x => !p x).length + (l.filter p).length = l.length := by
  induction l with
  | nil => rfl
  | cons a l ih =>
    by_cases h : p a <;> simp [List.filter_cons, h, ← ih] <;> omega

/-- C4 amended: the retention action deletes exactly the rows whose event
year precedes the start of the trailing N-year window
(`current_year − N + 1`); every row with event year at or after the window
start — inside the window or in the future — is kept, and the deleted
count plus the kept rows account for the whole table. -/
theorem C4_retention_amended :
    ∀ (n : Nat) (anoActual : Int) (t : List Asistencia) (r : Asistencia),
      (r ∈ (limpiar_datos_antiguos n anoActual t).1 ↔
        r ∈ t ∧ anoActual - ((n : Int) - 1) ≤ anioDe r.fecha_evento) ∧
      (limpiar_datos_antiguos n anoActual t).2 +
        (limpiar_datos_antiguos n anoActual t).1.length = t.length := by
  intro n y t r
  constructor
  · simp [limpiar_datos_antiguos, get_ventana_anos, List.mem_filter, not_lt]
  · unfold limpiar_datos_antiguos
    simp only [get_ventana_anos, decide_not]
    rw [Nat.add_comm]
    exact length_filter_not_add_length_filter t _

/-! ## Statistics: the default year window and explicit bounds -/

/-- C5: with no explicit date bounds, the statistics WHERE clause
restricts rows to event years in the trailing 5-year window ending at the
current year (plus the optional event/program filters); as soon as either
date bound is supplied, the clause is exactly the optional filters plus
the supplied bounds — no window condition is added. -/
theorem C5_default_window_or_bounds :
    (∀ (anoActual : Int) (evento programa : Str) (r : Asistencia),
      cumpleWhere (estadisticas_where anoActual evento programa [] []) r = true ↔
        ((anoActual - 4 ≤ anioDe r.fecha_evento ∧ anioDe r.fecha_evento ≤ anoActual) ∧
         (evento ≠ [] → r.nombre_evento = evento) ∧
         (programa ≠ [] → r.programa_estudiante = programa))) ∧
    (∀ (anoActual : Int) (evento programa fi ff : Str),
      fi ≠ [] ∨ ff ≠ [] →
      estadisticas_where anoActual evento programa fi ff =
        (if !evento.isEmpty then [Cond.eventoEq evento] else []) ++
        (if !programa.isEmpty then [Cond.programaEq programa] else []) ++
        (if !fi.isEmpty then [Cond.fechaGe fi] else []) ++
        (if !ff.isEmpty then [Cond.fechaLe ff] else [])) := by
  have h5 : ((5 : Nat) : Int) - 1 = 4 := by norm_num
  constructor
  · intro Y ev pr r
    cases ev <;> cases pr <;>
      simp [estadisticas_where, cumpleWhere, evalCond, get_ventana_anos, h5,
        List.isEmpty, beq_iff_eq, and_assoc]
  · intro Y ev pr fi ff hb
    have hff : (fi.isEmpty && ff.isEmpty) = false := by
      rcases hb with h | h
      · have hfi : fi.isEmpty = false := by
          cases fi with
          | nil => exact absurd rfl h
          | cons a l => rfl
        rw [hfi, Bool.false_and]
      · have hffa : ff.isEmpty = false := by
          cases ff with
          | nil => exact absurd rfl h
          | cons a l => rfl
        rw [hffa, Bool.and_false]
    simp [estadisticas_where, hff]

/-- Witness for C5: with a start date supplied, the built WHERE clause
consists of the supplied bound only — no year-window conditions. -/
theorem C5_default_window_or_bounds_witness :
    estadisticas_where 2025 [] [] (str "2020-01-01") [] =
      (if !([] : Str).isEmpty then [Cond.eventoEq []] else []) ++
      (if !([] : Str).isEmpty then [Cond.programaEq []] else []) ++
      (if !(str "2020-01-01").isEmpty then [Cond.fechaGe (str "2020-01-01")] else []) ++
      (if !([] : Str).isEmpty then [Cond.fechaLe []] else []) :=
  C5_default_window_or_bounds.2 2025 [] [] (str "2020-01-01") [] (Or.inl (by decide))

/-! ## Statistics: breakdown sums versus totals -/

/-- C3 counterexample: sixteen rows with sixteen distinct events inside
the default window. The reported total is 16, but the top-15 per-event
breakdown (`LIMIT 15`) sums to 15 — refuting "the total equals the sum of
the breakdown's values" as stated. -/
theorem C3_counterexample_top15_truncation :
    estad_total (estadisticas_where 2025 [] [] [] []) filasDieciseis = 16 ∧
    ((estad_por_evento (estadisticas_where 2025 [] [] [] []) filasDieciseis).map
        Prod.snd).sum = 15 := by decide

lemma length_filter_key_eq {K : Type} [DecidableEq K] (key : Asistencia → K)
    (l : List Asistencia) (k : K) :
    (l.filter fun r => decide (key r = k)).length = (l.map key).count k := by
  rw [← List.countP_eq_length_filter, List.count, List.countP_map]
  rfl

lemma sum_groupCountsBy {K : Type} [DecidableEq K] (key : Asistencia → K)
    (l : List Asistencia) :
    ((groupCountsBy key l).map Prod.snd).sum = l.length := by
  unfold groupCountsBy
  rw [List.map_map]
  have hfun : (Prod.snd ∘ fun k => (k, (l.filter fun r => decide (key r = k)).length)) =
      fun k => (l.map key).count k :=
    funext fun k => length_filter_key_eq key l k
  rw [hfun, List.sum_map_count_dedup_eq_length, List.length_map]

lemma sum_take15_insertionSort {K : Type} (groups : List (K × Nat))
    (le : K × Nat → K × Nat → Prop) [DecidableRel le] (h : groups.length ≤ 15) :
    (((List.insertionSort le groups).take 15).map Prod.snd).sum =
      (groups.map Prod.snd).sum := by
  have hp := List.perm_insertionSort le groups
  rw [List.take_of_length_le (le_trans (le_of_eq hp.length_eq) h)]
  exact (hp.map Prod.snd).sum_eq

/-- C3 amended: for every filter set, the total attendance count equals
the sum of the full (untruncated) per-event grouping, and likewise for
the per-program (program × modality) grouping; the reported top-15
breakdowns sum to the total exactly when the filtered data has at most 15
distinct groups. -/
theorem C3_breakdown_sums_amended :
    ∀ (conds : List Cond) (rows : List Asistencia),
      (((groupCountsBy keyEvento (rows.filter (cumpleWhere conds))).map
          Prod.snd).sum = estad_total conds rows) ∧
      (((groupCountsBy keyProgramaModalidad (rows.filter (cumpleWhere conds))).map
          Prod.snd).sum = estad_total conds rows) ∧
      ((groupCountsBy keyEvento (rows.filter (cumpleWhere conds))).length ≤ 15 →
        ((estad_por_evento conds rows).map Prod.snd).sum = estad_total conds rows) ∧
      ((groupCountsBy keyProgramaModalidad (rows.filter (cumpleWhere conds))).length ≤ 15 →
        ((estad_por_programa conds rows).map Prod.snd).sum = estad_total conds rows) := by
  intro conds rows
  refine ⟨sum_groupCountsBy _ _, sum_groupCountsBy _ _, fun h => ?_, fun h => ?_⟩
  · unfold estad_por_evento
    rw [sum_take15_insertionSort _ _ h]
    exact sum_groupCountsBy _ _
  · unfold estad_por_programa
    rw [sum_take15_insertionSort _ _ h]
    exact sum_groupCountsBy _ _

/-- Witness for C3 amended at a one-row table with no filters. -/
theorem C3_breakdown_sums_amended_witness :
    (((groupCountsBy keyEvento ([filaEjemplo].filter (cumpleWhere []))).map
        Prod.snd).sum = estad_total [] [filaEjemplo]) ∧
    (((groupCountsBy keyProgramaModalidad ([filaEjemplo].filter (cumpleWhere []))).map
        Prod.snd).sum = estad_total [] [filaEjemplo]) ∧
    (((estad_por_evento [] [filaEjemplo]).map Prod.snd).sum =
        estad_total [] [filaEjemplo]) ∧
    (((estad_por_programa [] [filaEjemplo]).map Prod.snd).sum =
        estad_total [] [filaEjemplo]) :=
  ⟨(C3_breakdown_sums_amended [] [filaEjemplo]).1,
   (C3_breakdown_sums_amended [] [filaEjemplo]).2.1,
   (C3_breakdown_sums_amended [] [filaEjemplo]).2.2.1 (by decide),
   (C3_breakdown_sums_amended [] [filaEjemplo]).2.2.2 (by decide)⟩

end Estadaniblio
